import Mathlib

/-!
Verification of the MirrorX identity-preservation pipeline
(`src/ai-models/huggingface-space/app.py`) against its specification.

Shallow embedding conventions:
* images are rectangular pixel grids, `Img := List (List Pixel)`, a pixel a
  BGR integer triple (the app converts PIL RGB input to OpenCV BGR);
* Python floats are modelled as elements of a linear ordered field `K`
  (instantiated at `ℚ` for executable witnesses, at `ℝ` for the analytic
  claims about the similarity scorer);
* `int(x)` (truncation toward zero) is `pyInt`, `//` on integers is `Int.fdiv`;
* external capabilities (the OOTDiffusion generator, the InsightFace analyzer
  and swapper, GFPGAN, OpenCV primitives such as `cvtColor`, `resize`,
  `ellipse`, `GaussianBlur`, `seamlessClone`, NumPy's `linalg.norm`) are
  uninterpreted functions collected in an `Env`; a call the Python code can
  see fail (the generator, the analyzer, the swapper, the enhancer,
  `seamlessClone`) returns `Except String _`;
* Python code that catches an exception and degrades is translated by
  matching on the corresponding `Except` value.
-/

deriving instance DecidableEq for Except

namespace MirrorX

/-- Pixel in channel order `(c0, c1, c2)`; BGR for OpenCV arrays. -/
abbrev Pixel := ℤ × ℤ × ℤ

/-- An image: a list of rows of pixels. -/
abbrev Img := List (List Pixel)

/-- A single-channel mask image (`np.uint8` values 0..255). -/
abbrev Mask := List (List ℤ)

/-- Truncation toward zero, the semantics of Python's `int(...)` on a float. -/
def pyInt (q : ℚ) : ℤ := if q < 0 then ⌈q⌉ else ⌊q⌋

/-- Python list slice `l[a:b]` with NumPy/Python index resolution
(negative indices count from the end, bounds are clamped). -/
def pySlice (l : List α) (a b : ℤ) : List α :=
  let n : ℤ := l.length
  let s := if a < 0 then max 0 (n + a) else min n a
  let e := if b < 0 then max 0 (n + b) else min n b
  (l.take e.toNat).drop s.toNat

/-- Two-dimensional NumPy slice `img[y1:y2, x1:x2]`. -/
def slice2D (img : Img) (y1 y2 x1 x2 : ℤ) : Img :=
  (pySlice img y1 y2).map (fun row => pySlice row x1 x2)

/-- Width of an image (`shape[1]`); the grids we build are rectangular. -/
def imgWidth (img : Img) : ℕ := (img.headD []).length

/-- Total number of pixels (`ndarray.size` up to the channel factor). -/
def imgSize (img : Img) : ℕ := (img.map List.length).sum

/-- All pixels of an image in row-major order (`reshape(-1, 3)`). -/
def imgPixels (img : Img) : List Pixel := img.flatten

/-- Whether `pat` occurs at the start of `l`. -/
def hasPre : List Char → List Char → Bool
  | [], _ => true
  | _ :: _, [] => false
  | a :: as, b :: bs => a = b && hasPre as bs

/-- Whether `pat` occurs as a contiguous run inside `l`. -/
def hasTok : List Char → List Char → Bool
  | [], pat => pat.isEmpty
  | a :: rest, pat => hasPre pat (a :: rest) || hasTok rest pat

/-- Substring containment on strings (the spec's "method contains a token"). -/
def strHasTok (s pat : String) : Bool := hasTok s.data pat.data

/-- String starts-with (the spec's "method prefixed with ..."). -/
def strHasPre (s pat : String) : Bool := hasPre pat.data s.data

/-- Integer bounding box `(x1, y1, x2, y2)` of a detected face, after the
`bbox.astype(int)` the Python code applies to the detector's output. -/
structure Rect where
  x1 : ℤ
  y1 : ℤ
  x2 : ℤ
  y2 : ℤ
deriving DecidableEq, Repr

/-- Area `(x2 - x1) * (y2 - y1)` used for the largest-face tie-break. -/
def Rect.area (r : Rect) : ℤ := (r.x2 - r.x1) * (r.y2 - r.y1)

section WithField

variable (K : Type) [LinearOrderedField K]

/-- A face as the external InsightFace analyzer reports it. -/
structure RawFace where
  bbox : Rect
  kps : List (K × K)
  embedding : List K
  det_score : K
deriving DecidableEq

/-- The dataclass `FaceData` of `app.py`. -/
structure FaceData where
  bbox : Rect
  landmarks : List (K × K)
  embedding : List K
  det_score : K
  skin_tone : ℤ × ℤ × ℤ
deriving DecidableEq

/-- The dataclass `ProcessingResult` of `app.py`; `processing_time` is wall
clock time, irrelevant to all claims, recorded as 0. -/
structure ProcessingResult where
  image : Img
  face_preserved : Bool
  face_similarity : K
  processing_time : ℚ
  method : String
deriving DecidableEq

/-- External capabilities and library primitives the pipeline calls.
Module-level state of `app.py` (`ootd_model`, `face_analyzer`,
`face_swapper`, `face_enhancer` each possibly `None`) is the four
`_present` flags; a capability call the Python code can see raise is an
`Except String` value. -/
structure Env where
  /-- `face_analyzer is not None`. -/
  analyzer_present : Bool
  /-- `face_analyzer.get(image)`; may raise. -/
  analyzer_get : Img → Except String (List (RawFace K))
  /-- `ootd_model is not None`. -/
  ootd_present : Bool
  /-- `ootd_model(...)` with category, steps, guidance; may raise. -/
  ootd_generate : Img → Img → String → ℕ → ℚ → Except String Img
  /-- `face_swapper is not None`. -/
  swapper_present : Bool
  /-- `face_swapper.get(target, target_face, source_face, paste_back=True)`. -/
  swapper_get : Img → RawFace K → RawFace K → Except String Img
  /-- `face_enhancer is not None`. -/
  enhancer_present : Bool
  /-- `face_enhancer.enhance(image, ...)`, projected to its `output`. -/
  enhancer : Img → Except String Img
  /-- `np.linalg.norm` on a 1-D vector. -/
  norm : List K → K
  /-- Per-pixel `cv2.cvtColor(..., cv2.COLOR_BGR2LAB)` (a pointwise map). -/
  labOf : Pixel → Pixel
  /-- `PIL.Image.resize((w, h), LANCZOS)`. -/
  resizePIL : Img → ℕ → ℕ → Img
  /-- `cv2.resize(img, (w, h))`. -/
  resizeCV : Img → ℕ → ℕ → Img
  /-- `cv2.ellipse` on a zero mask of size `w × h`: filled ellipse of value
  255 at the given center with the given axes. -/
  ellipseMask : ℕ → ℕ → ℤ × ℤ → ℤ × ℤ → Mask
  /-- `cv2.GaussianBlur(mask, (k, k), sigma)`. -/
  gaussBlur : Mask → ℕ → ℚ → Mask
  /-- `cv2.seamlessClone(fg, bg, mask, center, NORMAL_CLONE)`; may raise. -/
  seamlessClone : Img → Img → Mask → ℤ × ℤ → Except String Img

end WithField

variable {K : Type} [LinearOrderedField K]

/-- Dot product of two vectors, `np.dot` on 1-D arrays. -/
def dotP (a b : List K) : K := (List.zipWith (· * ·) a b).sum

/-- Transcription of `calculate_face_similarity` (`app.py` 238-249): `None`
check, L2-normalize through the library norm, cosine via `np.dot`, remap by
`(s + 1) / 2` and clamp into `[0, 1]` with `max(0, min(1, ·))`. -/
def calculate_face_similarity (norm : List K → K) :
    Option (List K) → Option (List K) → K
  | some embedding1, some embedding2 =>
      let e1 := embedding1.map (· / norm embedding1)
      let e2 := embedding2.map (· / norm embedding2)
      let similarity := dotP e1 e2
      max 0 (min 1 ((similarity + 1) / 2))
  | _, _ => 0

/-- The true Euclidean norm, what `np.linalg.norm` computes on a 1-D real
vector. -/
noncomputable def l2norm (v : List ℝ) : ℝ := Real.sqrt (dotP v v)

/-- Insert into a weakly sorted list of integers. -/
def insertLe (x : ℤ) : List ℤ → List ℤ
  | [] => [x]
  | y :: ys => if x ≤ y then x :: y :: ys else y :: insertLe x ys

/-- Insertion sort, the order `np.median` sorts by. -/
def sortLe (l : List ℤ) : List ℤ := l.foldr insertLe []

/-- Median of an integer sample as `np.median` computes it: middle element
for odd length, mean of the two middle elements for even length. -/
def medianQ (l : List ℤ) : ℚ :=
  let s := sortLe l
  let n := l.length
  if n = 0 then 0
  else if n % 2 = 1 then ((s.getD (n / 2) 0 : ℤ) : ℚ)
  else (((s.getD (n / 2 - 1) 0 + s.getD (n / 2) 0 : ℤ) : ℚ)) / 2

/-- Channel-wise `np.median(..., axis=0).astype(int)` over a pixel sample. -/
def medianPix (ps : List Pixel) : ℤ × ℤ × ℤ :=
  (pyInt (medianQ (ps.map fun p => p.1)),
   pyInt (medianQ (ps.map fun p => p.2.1)),
   pyInt (medianQ (ps.map fun p => p.2.2)))

/-- Membership in the LAB skin-chroma box of `extract_skin_tone`:
`cv2.inRange(lab, [20,130,130], [255,180,180])`. -/
def labInRange (p : Pixel) : Bool :=
  decide (20 ≤ p.1 ∧ p.1 ≤ 255 ∧ 130 ≤ p.2.1 ∧ p.2.1 ≤ 180 ∧
    130 ≤ p.2.2 ∧ p.2.2 ≤ 180)

/-- Transcription of `extract_skin_tone` (`app.py` 206-235). The zero-area
default, the LAB chroma filter with channel-wise median (returned BGR
reversed to RGB), and the central third-by-third fallback. `cv2.cvtColor`
is the pointwise `env.labOf`; it and the medians are total here, so the
source's final catch-all `except` has no modelled trigger. -/
def extract_skin_tone (env : Env K) (face_region : Img) : ℤ × ℤ × ℤ :=
  if imgSize face_region = 0 then (180, 140, 120)
  else
    let skin_pixels := (imgPixels face_region).filter fun p => labInRange (env.labOf p)
    if skin_pixels.length > 0 then
      let m := medianPix skin_pixels
      (m.2.2, m.2.1, m.1)
    else
      let h := face_region.length
      let w := imgWidth face_region
      let center := slice2D face_region (h / 3 : ℕ) ((2 * h / 3 : ℕ)) (w / 3 : ℕ) ((2 * w / 3 : ℕ))
      let m := medianPix (imgPixels center)
      (m.2.2, m.2.1, m.1)

/-- Python's `max(faces, key=bbox area)`: the first face of maximal
bounding-box area, `none` on an empty list. -/
def maxFace : List (RawFace K) → Option (RawFace K)
  | [] => none
  | f :: fs => some (fs.foldl (fun acc g => if g.bbox.area > acc.bbox.area then g else acc) f)

/-- Transcription of `detect_face` (`app.py` 173-203): `None` when the
analyzer is absent, reports no face, or raises; otherwise the largest face
with its skin tone extracted from the clamped bounding-box region. -/
def detect_face (env : Env K) (image : Img) : Option (FaceData K) :=
  if env.analyzer_present = false then none
  else
    match env.analyzer_get image with
    | .error _ => none
    | .ok faces =>
        match maxFace (K := K) faces with
        | none => none
        | some face =>
            let bbox := face.bbox
            let face_region := slice2D image (max 0 bbox.y1) (min (image.length : ℤ) bbox.y2)
              (max 0 bbox.x1) (min (imgWidth image : ℤ) bbox.x2)
            let skin_tone := extract_skin_tone env face_region
            some { bbox := bbox, landmarks := face.kps, embedding := face.embedding,
                   det_score := face.det_score, skin_tone := skin_tone }

/-- Channel clamp and truncation: `np.clip(x, 0, 255)` then `astype(np.uint8)`. -/
def clamp255 (q : ℚ) : ℤ := pyInt (max 0 (min 255 q))

/-- Add a per-channel shift to a BGR pixel, clip to `[0, 255]`, truncate. -/
def shiftPix (sh : ℚ × ℚ × ℚ) (p : Pixel) : Pixel :=
  (clamp255 ((p.1 : ℚ) + sh.1), clamp255 ((p.2.1 : ℚ) + sh.2.1),
   clamp255 ((p.2.2 : ℚ) + sh.2.2))

/-- NumPy region assignment `img[y:y+h, x:x+w] = reg` for an in-bounds
region. -/
def writeRegion (img : Img) (y x : ℕ) (reg : Img) : Img :=
  img.mapIdx fun i row =>
    if y ≤ i ∧ i < y + reg.length then
      row.mapIdx fun j p =>
        let r := reg.getD (i - y) []
        if x ≤ j ∧ j < x + r.length then r.getD (j - x) p else p
    else row

/-- Transcription of `match_skin_tone` (`app.py` 303-347): pad the box by
10% of the face width, re-extract the current tone, shift the region by
half the RGB difference (applied to BGR channels), clip and write back. -/
def match_skin_tone (env : Env K) (image : Img) (target_tone : ℤ × ℤ × ℤ)
    (face_bbox : Rect) : Img :=
  let padding := pyInt (((face_bbox.x2 - face_bbox.x1 : ℤ) : ℚ) * (1/10))
  let x1 := max 0 (face_bbox.x1 - padding)
  let y1 := max 0 (face_bbox.y1 - padding)
  let x2 := min (imgWidth image : ℤ) (face_bbox.x2 + padding)
  let y2 := min (image.length : ℤ) (face_bbox.y2 + padding)
  let face_region := slice2D image y1 y2 x1 x2
  if imgSize face_region = 0 then image
  else
    let current_tone := extract_skin_tone env face_region
    let shift : ℚ × ℚ × ℚ :=
      (((target_tone.2.2 - current_tone.2.2 : ℤ) : ℚ) * (1/2),
       ((target_tone.2.1 - current_tone.2.1 : ℤ) : ℚ) * (1/2),
       ((target_tone.1 - current_tone.1 : ℤ) : ℚ) * (1/2))
    let shifted := face_region.map fun row => row.map (shiftPix shift)
    writeRegion image y1.toNat x1.toNat shifted

/-- One pixel of the alpha-compositing fallback:
`(fg * m/255 + bg * (1 - m/255)).astype(np.uint8)`. -/
def alphaBlendPix (m : ℤ) (fg bg : Pixel) : Pixel :=
  (pyInt ((fg.1 : ℚ) * ((m : ℚ) / 255) + (bg.1 : ℚ) * (1 - (m : ℚ) / 255)),
   pyInt ((fg.2.1 : ℚ) * ((m : ℚ) / 255) + (bg.2.1 : ℚ) * (1 - (m : ℚ) / 255)),
   pyInt ((fg.2.2 : ℚ) * ((m : ℚ) / 255) + (bg.2.2 : ℚ) * (1 - (m : ℚ) / 255)))

/-- Whole-image alpha compositing with a single-channel mask. -/
def alphaBlend (fg bg : Img) (mask : Mask) : Img :=
  fg.mapIdx fun i row => row.mapIdx fun j p =>
    alphaBlendPix ((mask.getD i []).getD j 0) p ((bg.getD i []).getD j (0, 0, 0))

/-- Transcription of `apply_seamless_blend` (`app.py` 350-393): elliptical
mask inscribed in the box, Gaussian-blurred `(21, 21), 10`, then
`cv2.seamlessClone` with the alpha-compositing fallback when it raises. -/
def apply_seamless_blend (env : Env K) (background foreground : Img)
    (face_bbox : Rect) : Img :=
  let center := ((face_bbox.x1 + face_bbox.x2).fdiv 2, (face_bbox.y1 + face_bbox.y2).fdiv 2)
  let axes := ((face_bbox.x2 - face_bbox.x1).fdiv 2, (face_bbox.y2 - face_bbox.y1).fdiv 2)
  let mask := env.gaussBlur (env.ellipseMask (imgWidth foreground) foreground.length center axes) 21 10
  match env.seamlessClone foreground background mask center with
  | .ok result => result
  | .error _ => alphaBlend foreground background mask

/-- Transcription of `enhance_face` (`app.py` 396-413): identity when GFPGAN
is absent or raises. The box argument is accepted and unused, as in the
source. -/
def enhance_face (env : Env K) (image : Img) (face_bbox : Rect) : Img :=
  if env.enhancer_present = false then image
  else
    match env.enhancer image with
    | .ok output => output
    | .error _ => image

/-- Transcription of `swap_face_advanced` (`app.py` 252-300): identity when
the swapper is absent; re-detect both images through the raw analyzer, swap
the first faces, tone-match toward the source skin tone, seamless-blend
over the target; the target image is returned when the analyzer finds no
face on either side or any capability raises. -/
def swap_face_advanced (env : Env K) (source_image target_image : Img)
    (source_face target_face : FaceData K) : Img :=
  if env.swapper_present = false then target_image
  else
    match env.analyzer_get source_image, env.analyzer_get target_image with
    | .ok (sf :: _), .ok (tf :: _) =>
        (match env.swapper_get target_image tf sf with
         | .error _ => target_image
         | .ok result0 =>
             let result1 := match_skin_tone env result0 source_face.skin_tone target_face.bbox
             apply_seamless_blend env target_image result1 target_face.bbox)
    | _, _ => target_image

/-- Transcription of `preprocess_image` (`app.py` 420-433). The RGB mode
conversion is metadata-only in this pixel model; the downscale ratio and
truncations are exact. -/
def preprocess_image (env : Env K) (image : Img) (max_size : ℕ) : Img :=
  let width := imgWidth image
  let height := image.length
  if max_size < max width height then
    let scale : ℚ := (max_size : ℚ) / (max width height : ℚ)
    env.resizePIL image (pyInt ((width : ℚ) * scale)).toNat (pyInt ((height : ℚ) * scale)).toNat
  else image

/-- Transcription of `crop_to_half_body` (`app.py` 436-449): full-width row
slice from `max(0, int(y1 - 0.5 * faceHeight))` to
`min(h, faceCenterY + 4 * faceHeight)`. -/
def crop_to_half_body (image : Img) (face_data : FaceData K) : Img :=
  let h : ℤ := image.length
  let face_y_center := (face_data.bbox.y1 + face_data.bbox.y2).fdiv 2
  let face_height := face_data.bbox.y2 - face_data.bbox.y1
  let top := max 0 (pyInt ((face_data.bbox.y1 : ℚ) - (face_height : ℚ) * (1/2)))
  let bottom := min h (face_y_center + face_height * 4)
  pySlice image top bottom

/-- Transcription of `virtual_tryon_ootd` (`app.py` 456-475): raises when the
model is absent, otherwise defers to the external pipeline. -/
def virtual_tryon_ootd (env : Env K) (person_image clothing_image : Img)
    (category : String) (num_steps : ℕ) (guidance_scale : ℚ) : Except String Img :=
  if env.ootd_present = false then .error "OOTDiffusion model not loaded"
  else env.ootd_generate person_image clothing_image category num_steps guidance_scale

/-- PIL `paste` of `over` onto `base` at `(x, y)`, clipped to the base. -/
def overlayAt (base over : Img) (x y : ℤ) : Img :=
  base.mapIdx fun i row => row.mapIdx fun j p =>
    let oi := (i : ℤ) - y
    let oj := (j : ℤ) - x
    if 0 ≤ oi ∧ oi < (over.length : ℤ) ∧ 0 ≤ oj ∧ oj < (imgWidth over : ℤ) then
      (over.getD oi.toNat []).getD oj.toNat p
    else p

/-- Transcription of `virtual_tryon_fallback` (`app.py` 478-499): resize the
garment to 60% x 40%, paste horizontally centered at 25% height. The pixel
model carries no alpha channel, so the RGBA mask branch is not
distinguished. -/
def virtual_tryon_fallback (env : Env K) (person_image clothing_image : Img)
    (category : String) : Img :=
  let person_width := imgWidth person_image
  let person_height := person_image.length
  let clothing_resized := env.resizePIL clothing_image
    (pyInt ((person_width : ℚ) * (6/10))).toNat (pyInt ((person_height : ℚ) * (4/10))).toNat
  let x := ((person_width : ℤ) - (imgWidth clothing_resized : ℤ)).fdiv 2
  let y := pyInt ((person_height : ℚ) * (25/100))
  overlayAt person_image clothing_resized x y

/-- The per-channel blending loop of `swap_face_from_scratch` for a patch
known to lie inside the target (the out-of-bounds case raises in NumPy and
is handled by that function's `except`). -/
def blendPatch (target face : Img) (mask : Mask) (px py : ℤ) : Img :=
  target.mapIdx fun i row => row.mapIdx fun j p =>
    let fi := (i : ℤ) - py
    let fj := (j : ℤ) - px
    if 0 ≤ fi ∧ fi < (face.length : ℤ) ∧ 0 ≤ fj ∧ fj < (imgWidth face : ℤ) then
      alphaBlendPix ((mask.getD fi.toNat []).getD fj.toNat 0)
        ((face.getD fi.toNat []).getD fj.toNat p) p
    else p

/-- Transcription of `swap_face_from_scratch` (`app.py` 676-739): identity
when the swapper is absent; crop the first analyzer face of the source,
scale it to `int(w * 0.25)` target width, blur an inscribed ellipse mask,
and alpha-blend at the estimated head position (`w // 2`,
`int(h * 0.15)`). A zero-width face region (`ZeroDivisionError`), an empty
resize target (`cv2.resize` assertion), a negative ellipse axis
(`cv2.ellipse` asserts `axes.width >= 0 && axes.height >= 0`, so
`new_w // 2 - 5 < 0` or `new_h // 2 - 5 < 0` raises `cv2.error`) and an
out-of-bounds paste (NumPy broadcast error) all fall to the source's
`except`, which returns the target unchanged. -/
def swap_face_from_scratch (env : Env K) (source_image target_image : Img)
    (source_face : FaceData K) : Img :=
  if env.swapper_present = false then target_image
  else
    match env.analyzer_get source_image with
    | .error _ => target_image
    | .ok [] => target_image
    | .ok (src_face :: _) =>
        let h := target_image.length
        let w := imgWidth target_image
        let face_center_x : ℤ := (w : ℤ).fdiv 2
        let face_center_y : ℤ := pyInt ((h : ℚ) * (15/100))
        let face_region := slice2D source_image src_face.bbox.y1 src_face.bbox.y2
          src_face.bbox.x1 src_face.bbox.x2
        let face_h := face_region.length
        let face_w := imgWidth face_region
        if face_w = 0 then target_image
        else
          let target_face_size : ℤ := pyInt ((w : ℚ) * (25/100))
          let scale : ℚ := (target_face_size : ℚ) / (face_w : ℚ)
          let new_h := (pyInt ((face_h : ℚ) * scale)).toNat
          let new_w := target_face_size.toNat
          if new_w = 0 ∨ new_h = 0 then target_image
          else
            let face_resized := env.resizeCV face_region new_w new_h
            let paste_x := face_center_x - (new_w : ℤ).fdiv 2
            let paste_y := face_center_y - (new_h : ℤ).fdiv 2
            if (new_w : ℤ).fdiv 2 - 5 < 0 ∨ (new_h : ℤ).fdiv 2 - 5 < 0 then
              target_image
            else
              let mask := env.gaussBlur (env.ellipseMask new_w new_h
                ((new_w : ℤ).fdiv 2, (new_h : ℤ).fdiv 2)
                ((new_w : ℤ).fdiv 2 - 5, (new_h : ℤ).fdiv 2 - 5)) 21 10
              if 0 ≤ paste_y ∧ paste_y + (new_h : ℤ) ≤ (h : ℤ) ∧
                 0 ≤ paste_x ∧ paste_x + (new_w : ℤ) ≤ (w : ℤ) then
                blendPatch target_image face_resized mask paste_x paste_y
              else target_image

/-- OpenCV `cv2.cvtColor(..., cv2.COLOR_RGB2BGR)`: reverse the channels. -/
def rgb2bgr (img : Img) : Img := img.map (List.map fun p => (p.2.2, p.2.1, p.1))

/-- OpenCV `cv2.cvtColor(..., cv2.COLOR_BGR2RGB)`: reverse the channels. -/
def bgr2rgb (img : Img) : Img := img.map (List.map fun p => (p.2.2, p.2.1, p.1))

/-- The `except` clause of the orchestrator (`app.py` 662-673): the original
person image, `face_preserved=False`, similarity 0, method
`"error: " ++ message`. -/
def errorResult (person_image : Img) (msg : String) : ProcessingResult K :=
  { image := person_image, face_preserved := false, face_similarity := 0,
    processing_time := 0, method := "error: " ++ msg }

/-- The generation step as the orchestrator runs it: OOTDiffusion when
loaded (its failure propagates to the orchestrator's `except`), else the
compositing fallback. -/
def genStep (env : Env K) (person clothing : Img) (category : String)
    (num_steps : ℕ) (guidance : ℚ) : Except String Img :=
  if env.ootd_present then virtual_tryon_ootd env person clothing category num_steps guidance
  else .ok (virtual_tryon_fallback env person clothing category)

/-- Steps 6-7 of the orchestrator (`app.py` 631-660): optional enhancement
(only when an enhancer is loaded and similarity is at least 0.85), optional
PART-mode crop, conversion back to RGB, and assembly of the result with
`face_preserved = (face_similarity >= 0.85)`. -/
def finishStage (env : Env K) (result0 : Img) (face_similarity : K)
    (method : String) (mode : String) : ProcessingResult K :=
  let step6 : Img × String :=
    if env.enhancer_present = true ∧ 85/100 ≤ face_similarity then
      match detect_face env result0 with
      | some final_face => (enhance_face env result0 final_face.bbox, method ++ "+enhanced")
      | none => (result0, method)
    else (result0, method)
  let result1 :=
    if mode = "PART" then
      match detect_face env step6.1 with
      | some final_face => crop_to_half_body step6.1 final_face
      | none => step6.1
    else step6.1
  { image := bgr2rgb result1, face_preserved := decide (85/100 ≤ face_similarity),
    face_similarity := face_similarity, processing_time := 0, method := step6.2 }

/-- Steps 4-7 of the orchestrator (`app.py` 593-660), entered with the
original face in hand and the generated image in BGR: from-scratch
insertion at assumed similarity 0.95 when the generation has no detectable
face; otherwise score it, restore below 0.90 and re-score best-effort. -/
def afterGeneration (env : Env K) (person_np : Img) (original_face : FaceData K)
    (result_np : Img) (method : String) (mode : String) : ProcessingResult K :=
  match detect_face env result_np with
  | none =>
      let result2 := swap_face_from_scratch env person_np result_np original_face
      finishStage env result2 (95/100) (method ++ "+face_insert") mode
  | some generated_face =>
      let face_similarity := calculate_face_similarity env.norm
        (some original_face.embedding) (some generated_face.embedding)
      if face_similarity < 9/10 then
        let result2 := swap_face_advanced env person_np result_np original_face generated_face
        let method2 := method ++ "+face_swap"
        match detect_face env result2 with
        | some restored_face =>
            finishStage env result2 (calculate_face_similarity env.norm
              (some original_face.embedding) (some restored_face.embedding)) method2 mode
        | none => finishStage env result2 face_similarity method2 mode
      else finishStage env result_np face_similarity method mode

/-- Transcription of `generate_tryon_with_face_preservation`
(`app.py` 506-673). The outer `try` surfaces exactly the generator's
failure in this model (every other capability call is caught at smaller
scope in the source); both generation call sites route it to
`errorResult`. -/
def generate_tryon_with_face_preservation (env : Env K)
    (person_image clothing_image : Img) (mode category : String)
    (num_steps : ℕ) (guidance_scale : ℚ) : ProcessingResult K :=
  let person_processed := preprocess_image env person_image 1024
  let clothing_processed := preprocess_image env clothing_image 1024
  let person_np := rgb2bgr person_processed
  match detect_face env person_np with
  | none =>
      match genStep env person_processed clothing_processed category num_steps guidance_scale with
      | .error e => errorResult person_image e
      | .ok result_image =>
          { image := result_image, face_preserved := false, face_similarity := 0,
            processing_time := 0, method := "no_face_detected" }
  | some original_face =>
      match genStep env person_processed clothing_processed category num_steps guidance_scale with
      | .error e => errorResult person_image e
      | .ok result_image =>
          let method := if env.ootd_present then "OOTDiffusion" else "fallback"
          afterGeneration env person_np original_face (rgb2bgr result_image) method mode

/-! Concrete test fixtures used by the witness theorems: tiny images and
fully specified rational environments. -/

/-- A one-pixel person photo. -/
def pimg : Img := [[(7, 7, 7)]]

/-- A one-pixel generator output, distinct from `pimg`. -/
def gimg : Img := [[(3, 3, 3)]]

/-- A 4 x 4 image of one channel-symmetric pixel. -/
def img4 (p : Pixel) : Img := List.replicate 4 (List.replicate 4 p)

/-- A 4 x 4 person photo. -/
def pimg6 : Img := img4 (7, 7, 7)

/-- A 40 x 40 generator output: wide enough that the quarter-width inserted
face measures 10 pixels and the ellipse axes are nonnegative. -/
def gimg40 : Img := List.replicate 40 (List.replicate 40 (3, 3, 3))

/-- A raw analyzer face with unit embedding `[1]`. -/
def face1 : RawFace ℚ :=
  { bbox := { x1 := 0, y1 := 0, x2 := 1, y2 := 1 }, kps := [], embedding := [1],
    det_score := 1 }

/-- A raw analyzer face with embedding `[9/10]`. -/
def face2 : RawFace ℚ :=
  { bbox := { x1 := 0, y1 := 0, x2 := 1, y2 := 1 }, kps := [], embedding := [9/10],
    det_score := 1 }

/-- The `FaceData` that `detect_face` produces from `face1` on the tiny
fixtures (the skin-tone fallback lands on `(0, 0, 0)`). -/
def dFace1 : FaceData ℚ :=
  { bbox := { x1 := 0, y1 := 0, x2 := 1, y2 := 1 }, landmarks := [], embedding := [1],
    det_score := 1, skin_tone := (0, 0, 0) }

/-- The `FaceData` that `detect_face` produces from `face2`. -/
def dFace2 : FaceData ℚ :=
  { bbox := { x1 := 0, y1 := 0, x2 := 1, y2 := 1 }, landmarks := [], embedding := [9/10],
    det_score := 1, skin_tone := (0, 0, 0) }

/-- A rational environment whose analyzer reports `face2` on the generated
image and `face1` elsewhere (similarity 0.95 with the constant-1 norm), with
trivial OpenCV primitives. -/
def baseEnv : Env ℚ :=
  { analyzer_present := true
    analyzer_get := fun img =>
      if img = rgb2bgr gimg then .ok [face2] else .ok [face1]
    ootd_present := true
    ootd_generate := fun _ _ _ _ _ => .ok gimg
    swapper_present := false
    swapper_get := fun t _ _ => .ok t
    enhancer_present := false
    enhancer := fun i => .ok i
    norm := fun _ => 1
    labOf := fun p => p
    resizePIL := fun i _ _ => i
    resizeCV := fun i _ _ => i
    ellipseMask := fun w h _ _ => List.replicate h (List.replicate w 255)
    gaussBlur := fun m _ _ => m
    seamlessClone := fun f _ _ _ => .ok f }

/-- The base environment with a generator that raises. -/
def c2Env : Env ℚ := { baseEnv with ootd_generate := fun _ _ _ _ _ => .error "boom" }

/-- The base environment with an analyzer that never finds a face. -/
def c5Env : Env ℚ := { baseEnv with analyzer_get := fun _ => .ok [] }

/-- An environment for the from-scratch insertion: the swapper is loaded,
the analyzer sees `face1` everywhere except on the 40 x 40 generated
image. -/
def c6Env : Env ℚ :=
  { baseEnv with
    swapper_present := true
    analyzer_get := fun img => if img = rgb2bgr gimg40 then .ok [] else .ok [face1]
    ootd_generate := fun _ _ _ _ _ => .ok gimg40 }

/-- An environment where the swapper is missing, the generated image has no
detectable face, and an enhancer is loaded (it must still be skipped). -/
def c10Env : Env ℚ :=
  { baseEnv with
    swapper_present := false
    enhancer_present := true
    analyzer_get := fun img => if img = rgb2bgr gimg then .ok [] else .ok [face1] }

/-- A face with bounding box rows 100..150 for the crop scenario. -/
def dFace9 : FaceData ℚ :=
  { bbox := { x1 := 0, y1 := 100, x2 := 1, y2 := 150 }, landmarks := [], embedding := [1],
    det_score := 1, skin_tone := (0, 0, 0) }

/-- A 400-row image for the crop scenario. -/
def img400 : Img := List.replicate 400 [(0, 0, 0)]

/-- A 3 x 3 pixel region whose pixels fail the LAB chroma filter under the
identity LAB map. -/
def reg3 : Img := List.replicate 3 (List.replicate 3 (7, 7, 7))

/-! General lemmas about the embedded pipeline. -/

theorem finishStage_face_similarity (env : Env K) (img : Img) (s : K) (m mode : String) :
    (finishStage env img s m mode).face_similarity = s := rfl

theorem finishStage_face_preserved (env : Env K) (img : Img) (s : K) (m mode : String) :
    (finishStage env img s m mode).face_preserved = decide ((85/100 : K) ≤ s) := rfl

theorem finishStage_method (env : Env K) (img : Img) (s : K) (m mode : String) :
    (finishStage env img s m mode).method = m ∨
      (finishStage env img s m mode).method = m ++ "+enhanced" := by
  simp only [finishStage]
  split
  · split
    · right; rfl
    · left; rfl
  · left; rfl

theorem afterGeneration_pres (env : Env K) (pn : Img) (ofc : FaceData K)
    (rn : Img) (m mode : String) :
    ((afterGeneration env pn ofc rn m mode).face_preserved = true) ↔
      (85/100 : K) ≤ (afterGeneration env pn ofc rn m mode).face_similarity := by
  unfold afterGeneration
  cases hd : detect_face env rn with
  | none =>
      simp only [hd, finishStage_face_preserved, finishStage_face_similarity,
        decide_eq_true_eq]
  | some gf =>
      simp only [hd]
      by_cases hs : calculate_face_similarity env.norm (some ofc.embedding)
        (some gf.embedding) < 9/10
      · rw [if_pos hs]
        cases hr : detect_face env (swap_face_advanced env pn rn ofc gf) with
        | some rf =>
            simp only [hr, finishStage_face_preserved, finishStage_face_similarity,
              decide_eq_true_eq]
        | none =>
            simp only [hr, finishStage_face_preserved, finishStage_face_similarity,
              decide_eq_true_eq]
      · rw [if_neg hs, finishStage_face_preserved, finishStage_face_similarity,
          decide_eq_true_eq]

theorem bgr_rgb_roundtrip (img : Img) : bgr2rgb (rgb2bgr img) = img := by
  have hff : ((fun p : Pixel => (p.2.2, p.2.1, p.1)) ∘ fun p : Pixel => (p.2.2, p.2.1, p.1)) = id := rfl
  simp [bgr2rgb, rgb2bgr, List.map_map, hff]

/-- The claim C1.
For every `ProcessingResult` the orchestrator produces - accept path,
restoration path, from-scratch insertion path, no-face path and error path
alike - `face_preserved` holds exactly when `face_similarity >= 0.85`; it
is never set independently of the similarity value and this fixed
threshold. -/
theorem facePreserved_iff_similarity_ge (env : Env K) (person clothing : Img)
    (mode category : String) (num_steps : ℕ) (guidance : ℚ) :
    ((generate_tryon_with_face_preservation env person clothing mode category
        num_steps guidance).face_preserved = true) ↔
      (85/100 : K) ≤ (generate_tryon_with_face_preservation env person clothing
        mode category num_steps guidance).face_similarity := by
  unfold generate_tryon_with_face_preservation
  cases hd : detect_face env (rgb2bgr (preprocess_image env person 1024)) with
  | none =>
      cases hg : genStep env (preprocess_image env person 1024)
        (preprocess_image env clothing 1024) category num_steps guidance with
      | error e =>
          simp only [hd, hg, errorResult]
          constructor
          · intro h; exact absurd h (by simp)
          · intro h; exact absurd h (by norm_num)
      | ok img =>
          simp only [hd, hg]
          constructor
          · intro h; exact absurd h (by simp)
          · intro h; exact absurd h (by norm_num)
  | some ofc =>
      cases hg : genStep env (preprocess_image env person 1024)
        (preprocess_image env clothing 1024) category num_steps guidance with
      | error e =>
          simp only [hd, hg, errorResult]
          constructor
          · intro h; exact absurd h (by simp)
          · intro h; exact absurd h (by norm_num)
      | ok img =>
          simp only [hd, hg]
          exact afterGeneration_pres ..

/-- Whether a list starts with its own prefix extended by anything. -/
theorem hasPre_append (p rest : List Char) : hasPre p (p ++ rest) = true := by
  induction p with
  | nil => rfl
  | cons a as ih => simp [hasPre, ih]

/-- The claim C2.
The orchestrator never lets an internal failure escape: in this model every
capability failure other than the generator's is already caught at smaller
scope inside the transcribed helpers (each of them is a total function),
and a generator failure - the one failure the outer `try` can see - yields
a `ProcessingResult` carrying the untouched original person image,
`face_preserved = false`, similarity 0, and a method string prefixed with
"error". -/
theorem generator_failure_yields_error_result (env : Env K) (person clothing : Img)
    (mode category : String) (num_steps : ℕ) (guidance : ℚ) (msg : String)
    (hgen : genStep env (preprocess_image env person 1024)
      (preprocess_image env clothing 1024) category num_steps guidance = .error msg) :
    generate_tryon_with_face_preservation env person clothing mode category
        num_steps guidance = errorResult person msg ∧
      (generate_tryon_with_face_preservation env person clothing mode category
        num_steps guidance).image = person ∧
      (generate_tryon_with_face_preservation env person clothing mode category
        num_steps guidance).face_preserved = false ∧
      strHasPre (generate_tryon_with_face_preservation env person clothing mode
        category num_steps guidance).method "error" = true := by
  have hmain : generate_tryon_with_face_preservation env person clothing mode category
      num_steps guidance = errorResult person msg := by
    unfold generate_tryon_with_face_preservation
    cases hd : detect_face env (rgb2bgr (preprocess_image env person 1024)) with
    | none => simp only [hd, hgen]
    | some ofc => simp only [hd, hgen]
  refine ⟨hmain, ?_, ?_, ?_⟩
  · rw [hmain]; rfl
  · rw [hmain]; rfl
  · rw [hmain]
    show strHasPre ("error: " ++ msg) "error" = true
    have hsplit : ("error: " ++ msg : String) = "error" ++ (": " ++ msg) := by
      rw [← String.append_assoc]
      rfl
    rw [hsplit]
    show hasPre "error".data ("error" ++ (": " ++ msg)).data = true
    rw [String.data_append "error" (": " ++ msg)]
    exact hasPre_append "error".data (": " ++ msg).data

/-- Witness for C2: a concrete run with a raising generator produces the
error-shaped result carrying the original photo. -/
theorem generator_failure_yields_error_result_witness :
    (genStep c2Env (preprocess_image c2Env pimg 1024) (preprocess_image c2Env pimg 1024)
        "upperbody" 25 (5/2) = .error "boom") ∧
      (generate_tryon_with_face_preservation c2Env pimg pimg "PART" "upperbody" 25
        (5/2)).image = pimg ∧
      (generate_tryon_with_face_preservation c2Env pimg pimg "PART" "upperbody" 25
        (5/2)).face_preserved = false ∧
      strHasPre (generate_tryon_with_face_preservation c2Env pimg pimg "PART"
        "upperbody" 25 (5/2)).method "error" = true := by
  have h := generator_failure_yields_error_result c2Env pimg pimg "PART" "upperbody"
    25 (5/2) "boom" (by decide!)
  exact ⟨by decide!, h.2.1, h.2.2.1, h.2.2.2⟩

/-- The claim C3.
When a face is detected in both the original and the generated image, the
restoration branch (recorded as a "face_swap" token in `method`) executes
exactly when the computed similarity is below 0.90; the reported similarity
is then recomputed from re-detecting the restored image, and the
pre-restoration score is kept when re-detection fails. Above the threshold
(such as at similarity 0.95) no restoration executes and `method` carries
no "face_swap" token. -/
theorem restoration_iff_similarity_below (env : Env K) (person clothing : Img)
    (mode category : String) (num_steps : ℕ) (guidance : ℚ)
    (ofc gf : FaceData K) (gen : Img)
    (hof : detect_face env (rgb2bgr (preprocess_image env person 1024)) = some ofc)
    (hgen : genStep env (preprocess_image env person 1024)
      (preprocess_image env clothing 1024) category num_steps guidance = .ok gen)
    (hgf : detect_face env (rgb2bgr gen) = some gf) :
    (strHasTok (generate_tryon_with_face_preservation env person clothing mode
        category num_steps guidance).method "face_swap" = true ↔
      calculate_face_similarity env.norm (some ofc.embedding) (some gf.embedding) < 9/10) ∧
    (9/10 ≤ calculate_face_similarity env.norm (some ofc.embedding) (some gf.embedding) →
      (generate_tryon_with_face_preservation env person clothing mode category
        num_steps guidance).face_similarity =
        calculate_face_similarity env.norm (some ofc.embedding) (some gf.embedding)) ∧
    (calculate_face_similarity env.norm (some ofc.embedding) (some gf.embedding) < 9/10 →
      (∀ rf, detect_face env (swap_face_advanced env
          (rgb2bgr (preprocess_image env person 1024)) (rgb2bgr gen) ofc gf) = some rf →
        (generate_tryon_with_face_preservation env person clothing mode category
          num_steps guidance).face_similarity =
          calculate_face_similarity env.norm (some ofc.embedding) (some rf.embedding)) ∧
      (detect_face env (swap_face_advanced env
          (rgb2bgr (preprocess_image env person 1024)) (rgb2bgr gen) ofc gf) = none →
        (generate_tryon_with_face_preservation env person clothing mode category
          num_steps guidance).face_similarity =
          calculate_face_similarity env.norm (some ofc.embedding) (some gf.embedding))) := by
  have hr : generate_tryon_with_face_preservation env person clothing mode category
      num_steps guidance = afterGeneration env (rgb2bgr (preprocess_image env person 1024))
      ofc (rgb2bgr gen) (if env.ootd_present then "OOTDiffusion" else "fallback") mode := by
    unfold generate_tryon_with_face_preservation
    simp only [hof, hgen]
  rw [hr]
  unfold afterGeneration
  simp only [hgf]
  by_cases hcase : calculate_face_similarity env.norm (some ofc.embedding)
    (some gf.embedding) < 9/10
  · rw [if_pos hcase]
    rcases Option.eq_none_or_eq_some (detect_face env (swap_face_advanced env
        (rgb2bgr (preprocess_image env person 1024)) (rgb2bgr gen) ofc gf)) with
      hrf | ⟨rf, hrf⟩
    · simp only [hrf]
      refine ⟨⟨fun _ => hcase, fun _ => ?_⟩, fun h => absurd hcase (not_lt.mpr h),
        fun _ => ⟨fun rf2 hrf2 => Option.noConfusion hrf2,
          fun _ => finishStage_face_similarity ..⟩⟩
      rcases finishStage_method env (swap_face_advanced env
          (rgb2bgr (preprocess_image env person 1024)) (rgb2bgr gen) ofc gf)
          (calculate_face_similarity env.norm (some ofc.embedding) (some gf.embedding))
          ((if env.ootd_present then "OOTDiffusion" else "fallback") ++ "+face_swap")
          mode with h | h <;>
        rw [h] <;> cases hb : env.ootd_present <;> decide
    · simp only [hrf]
      refine ⟨⟨fun _ => hcase, fun _ => ?_⟩, fun h => absurd hcase (not_lt.mpr h),
        fun _ => ⟨fun rf2 hrf2 => ?_, fun hnone => Option.noConfusion hnone⟩⟩
      · rcases finishStage_method env (swap_face_advanced env
            (rgb2bgr (preprocess_image env person 1024)) (rgb2bgr gen) ofc gf)
            (calculate_face_similarity env.norm (some ofc.embedding) (some rf.embedding))
            ((if env.ootd_present then "OOTDiffusion" else "fallback") ++ "+face_swap")
            mode with h | h <;>
          rw [h] <;> cases hb : env.ootd_present <;> decide
      · cases hrf2
        exact finishStage_face_similarity ..
  · rw [if_neg hcase]
    refine ⟨⟨fun htok => ?_, fun h => absurd h hcase⟩,
      fun _ => finishStage_face_similarity .., fun h => absurd h hcase⟩
    exfalso
    rcases finishStage_method env (rgb2bgr gen)
        (calculate_face_similarity env.norm (some ofc.embedding) (some gf.embedding))
        (if env.ootd_present then "OOTDiffusion" else "fallback") mode with h | h <;>
      rw [h] at htok <;> revert htok <;> cases hb : env.ootd_present <;> decide

/-- Witness for C3: a concrete run at similarity exactly 0.95 triggers no
restoration and reports the measured score unchanged. -/
theorem restoration_iff_similarity_below_witness :
    (detect_face baseEnv (rgb2bgr (preprocess_image baseEnv pimg 1024)) = some dFace1) ∧
      (detect_face baseEnv (rgb2bgr gimg) = some dFace2) ∧
      calculate_face_similarity baseEnv.norm (some dFace1.embedding)
        (some dFace2.embedding) = 19/20 ∧
      strHasTok (generate_tryon_with_face_preservation baseEnv pimg pimg "PART"
        "upperbody" 25 (5/2)).method "face_swap" = false ∧
      (generate_tryon_with_face_preservation baseEnv pimg pimg "PART" "upperbody" 25
        (5/2)).face_similarity = 19/20 := by
  have h := restoration_iff_similarity_below baseEnv pimg pimg "PART" "upperbody" 25
    (5/2) dFace1 dFace2 gimg (by decide!) (by decide!) (by decide!)
  refine ⟨by decide!, by decide!, by decide!, ?_, ?_⟩
  · have hnot : ¬ (calculate_face_similarity baseEnv.norm (some dFace1.embedding)
        (some dFace2.embedding) < 9/10) := by decide!
    cases htok : strHasTok (generate_tryon_with_face_preservation baseEnv pimg pimg
      "PART" "upperbody" 25 (5/2)).method "face_swap"
    · rfl
    · exact absurd (h.1.mp htok) hnot
  · have h2 := h.2.1 (by decide!)
    rw [h2]
    decide!

/-! Lemmas about the dot product and the similarity scorer over the reals. -/

theorem dotP_cons (x y : K) (xs ys : List K) :
    dotP (x :: xs) (y :: ys) = x * y + dotP xs ys := by
  simp [dotP]

theorem dotP_comm (a b : List K) : dotP a b = dotP b a := by
  induction a generalizing b with
  | nil => cases b <;> rfl
  | cons x xs ih =>
      cases b with
      | nil => rfl
      | cons y ys => rw [dotP_cons, dotP_cons, mul_comm, ih]

theorem dotP_self_nonneg (a : List K) : 0 ≤ dotP a a := by
  induction a with
  | nil => exact le_refl 0
  | cons x xs ih => rw [dotP_cons]; exact add_nonneg (mul_self_nonneg x) ih

theorem dotP_map_div (a b : List K) (n m : K) :
    dotP (a.map (· / n)) (b.map (· / m)) = dotP a b / (n * m) := by
  induction a generalizing b with
  | nil => cases b <;> simp [dotP]
  | cons x xs ih =>
      cases b with
      | nil => simp [dotP]
      | cons y ys =>
          simp only [List.map_cons, dotP_cons, ih, div_mul_div_comm, add_div]

theorem calculate_face_similarity_some (norm : List K → K) (v1 v2 : List K) :
    calculate_face_similarity norm (some v1) (some v2) =
      max 0 (min 1 ((dotP (v1.map (· / norm v1)) (v2.map (· / norm v2)) + 1) / 2)) := rfl

/-- The claim C4.
For every pair of real-valued input vectors - the zero vector and
opposite-direction vectors included - `calculate_face_similarity` with the
true Euclidean norm returns a value in `[0, 1]`: the L2-normalized cosine
is remapped through `(cos + 1) / 2` and clamped into the unit interval (in
the real-number semantics of this embedding, normalizing a zero vector
divides by zero, which Lean evaluates to 0 and the clamp still bounds). -/
theorem similarity_score_mem_unit_interval (e1 e2 : Option (List ℝ)) :
    0 ≤ calculate_face_similarity l2norm e1 e2 ∧
      calculate_face_similarity l2norm e1 e2 ≤ 1 := by
  cases e1 with
  | none => cases e2 <;> exact ⟨le_refl 0, zero_le_one⟩
  | some v1 =>
      cases e2 with
      | none => exact ⟨le_refl 0, zero_le_one⟩
      | some v2 =>
          rw [calculate_face_similarity_some]
          exact ⟨le_max_left 0 _, max_le (by norm_num) (min_le_left 1 _)⟩

/-- The claim C8.
The score is reflexive - for any non-null embedding `e` (a vector with
nonzero self dot product), `score(e, e)` equals 1.0, so it lies within the
1e-6 tolerance - and commutative on all inputs, absent embeddings
included. -/
theorem similarity_score_reflexive_commutative :
    (∀ e : List ℝ, dotP e e ≠ 0 →
      |calculate_face_similarity l2norm (some e) (some e) - 1| ≤ 1/1000000) ∧
    (∀ a b : Option (List ℝ),
      calculate_face_similarity l2norm a b = calculate_face_similarity l2norm b a) := by
  constructor
  · intro e he
    have hnn : (0:ℝ) ≤ dotP e e := dotP_self_nonneg e
    have hmul : l2norm e * l2norm e = dotP e e := by
      simp only [l2norm]
      exact Real.mul_self_sqrt hnn
    have hone : calculate_face_similarity l2norm (some e) (some e) = 1 := by
      rw [calculate_face_similarity_some, dotP_map_div, hmul, div_self he]
      norm_num
    rw [hone]
    norm_num
  · intro a b
    cases a with
    | none => cases b <;> rfl
    | some v1 =>
        cases b with
        | none => rfl
        | some v2 =>
            rw [calculate_face_similarity_some, calculate_face_similarity_some,
              dotP_comm]

/-- Witness for C8: the one-dimensional unit embedding scores exactly 1
against itself. -/
theorem similarity_score_reflexive_commutative_witness :
    dotP ([1] : List ℝ) [1] ≠ 0 ∧
      |calculate_face_similarity l2norm (some [(1:ℝ)]) (some [1]) - 1| ≤ 1/1000000 :=
  ⟨by norm_num [dotP], similarity_score_reflexive_commutative.1 [1] (by norm_num [dotP])⟩

/-- The amended claim C5.
When the original image has no detectable face the result carries
`face_preserved = false`, method exactly `"no_face_detected"`, similarity
0.0, and - unlike the original claim's wording - its image is the
generator's output on the preprocessed inputs, not the untouched original
person image (the source runs the generator in this branch and returns its
result). -/
theorem noface_returns_generated_image (env : Env K) (person clothing : Img)
    (mode category : String) (num_steps : ℕ) (guidance : ℚ) (gen : Img)
    (hof : detect_face env (rgb2bgr (preprocess_image env person 1024)) = none)
    (hgen : genStep env (preprocess_image env person 1024)
      (preprocess_image env clothing 1024) category num_steps guidance = .ok gen) :
    (generate_tryon_with_face_preservation env person clothing mode category
        num_steps guidance).face_preserved = false ∧
      (generate_tryon_with_face_preservation env person clothing mode category
        num_steps guidance).method = "no_face_detected" ∧
      (generate_tryon_with_face_preservation env person clothing mode category
        num_steps guidance).face_similarity = 0 ∧
      (generate_tryon_with_face_preservation env person clothing mode category
        num_steps guidance).image = gen := by
  unfold generate_tryon_with_face_preservation
  simp [hof, hgen]

/-- Counterexample for C5 as frozen: a concrete no-face run returns the
generator's output, which differs from the untouched original image, while
every other conjunct of the claim holds. -/
theorem noface_image_not_original_counterexample :
    detect_face c5Env (rgb2bgr (preprocess_image c5Env pimg 1024)) = none ∧
      (generate_tryon_with_face_preservation c5Env pimg pimg "PART" "upperbody" 25
        (5/2)).method = "no_face_detected" ∧
      (generate_tryon_with_face_preservation c5Env pimg pimg "PART" "upperbody" 25
        (5/2)).face_preserved = false ∧
      (generate_tryon_with_face_preservation c5Env pimg pimg "PART" "upperbody" 25
        (5/2)).face_similarity = 0 ∧
      ¬ (generate_tryon_with_face_preservation c5Env pimg pimg "PART" "upperbody" 25
        (5/2)).image = pimg :=
  ⟨by decide!, by decide!, by decide!, by decide!, by decide!⟩

/-- Witness for the amended C5 at a concrete no-face run. -/
theorem noface_returns_generated_image_witness :
    (detect_face c5Env (rgb2bgr (preprocess_image c5Env pimg 1024)) = none) ∧
      (genStep c5Env (preprocess_image c5Env pimg 1024) (preprocess_image c5Env pimg 1024)
        "upperbody" 25 (5/2) = .ok gimg) ∧
      ((generate_tryon_with_face_preservation c5Env pimg pimg "PART" "upperbody" 25
          (5/2)).face_preserved = false ∧
        (generate_tryon_with_face_preservation c5Env pimg pimg "PART" "upperbody" 25
          (5/2)).method = "no_face_detected" ∧
        (generate_tryon_with_face_preservation c5Env pimg pimg "PART" "upperbody" 25
          (5/2)).face_similarity = 0 ∧
        (generate_tryon_with_face_preservation c5Env pimg pimg "PART" "upperbody" 25
          (5/2)).image = gimg) :=
  ⟨by decide!, by decide!,
    noface_returns_generated_image c5Env pimg pimg "PART" "upperbody" 25 (5/2) gimg
      (by decide!) (by decide!)⟩

/-- The claim C7.
`extract_skin_tone` is a total function of its region (the source's
catch-all `except` and the early guards leave no raising path in this
model): a zero-area region returns exactly `(180, 140, 120)`, and when no
pixel passes the LAB chroma filter the result is the channel-wise median
color of the central third-by-third sub-rectangle (returned BGR-reversed
to RGB), provided that central sample is nonempty (an empty one feeds
`np.median` a NaN, which the model leaves at the `medianPix` default). -/
theorem extract_skin_tone_fallbacks (env : Env K) (region : Img) :
    (imgSize region = 0 → extract_skin_tone env region = (180, 140, 120)) ∧
      (imgSize region ≠ 0 →
        (imgPixels region).filter (fun p => labInRange (env.labOf p)) = [] →
        extract_skin_tone env region =
          ((medianPix (imgPixels (slice2D region ((region.length / 3 : ℕ) : ℤ)
              ((2 * region.length / 3 : ℕ) : ℤ) ((imgWidth region / 3 : ℕ) : ℤ)
              ((2 * imgWidth region / 3 : ℕ) : ℤ)))).2.2,
            (medianPix (imgPixels (slice2D region ((region.length / 3 : ℕ) : ℤ)
              ((2 * region.length / 3 : ℕ) : ℤ) ((imgWidth region / 3 : ℕ) : ℤ)
              ((2 * imgWidth region / 3 : ℕ) : ℤ)))).2.1,
            (medianPix (imgPixels (slice2D region ((region.length / 3 : ℕ) : ℤ)
              ((2 * region.length / 3 : ℕ) : ℤ) ((imgWidth region / 3 : ℕ) : ℤ)
              ((2 * imgWidth region / 3 : ℕ) : ℤ)))).1)) := by
  constructor
  · intro hz
    unfold extract_skin_tone
    rw [if_pos hz]
  · intro hz hfilter
    unfold extract_skin_tone
    rw [if_neg hz]
    simp only [hfilter, List.length_nil, gt_iff_lt, lt_self_iff_false, if_false]

/-- Witness for C7: the empty region returns the default tone, and a 3 x 3
region failing the chroma filter returns the central median. -/
theorem extract_skin_tone_fallbacks_witness :
    (imgSize ([] : Img) = 0 ∧ extract_skin_tone baseEnv ([] : Img) = (180, 140, 120)) ∧
      (imgSize reg3 ≠ 0 ∧
        (imgPixels reg3).filter (fun p => labInRange (baseEnv.labOf p)) = [] ∧
        extract_skin_tone baseEnv reg3 = (7, 7, 7)) := by
  constructor
  · exact ⟨rfl, (extract_skin_tone_fallbacks baseEnv []).1 rfl⟩
  · refine ⟨by decide!, by decide!, ?_⟩
    have h := (extract_skin_tone_fallbacks baseEnv reg3).2 (by decide!) (by decide!)
    rw [h]
    decide!

/-- The claim C9.
`crop_to_half_body` keeps the full width and crops rows from
`max(0, int(y1 - 0.5 * faceHeight))` to `min(h, faceCenterY + 4 * faceHeight)`;
for a face with `y1 = 100` and height 50 on an image of at least 325 rows
that is exactly rows 75 to 324. -/
theorem crop_to_half_body_rows (img : Img) (fd : FaceData ℚ)
    (h1 : fd.bbox.y1 = 100) (h2 : fd.bbox.y2 = 150) (h3 : 325 ≤ img.length) :
    crop_to_half_body img fd = (img.take 325).drop 75 := by
  have hdef : crop_to_half_body img fd = pySlice img
      (max 0 (pyInt ((fd.bbox.y1 : ℚ) - ((fd.bbox.y2 - fd.bbox.y1 : ℤ) : ℚ) * (1/2))))
      (min (img.length : ℤ) ((fd.bbox.y1 + fd.bbox.y2).fdiv 2 +
        (fd.bbox.y2 - fd.bbox.y1) * 4)) := rfl
  rw [hdef, h1, h2]
  have e1 : ((100 : ℤ) : ℚ) - (((150 : ℤ) - (100 : ℤ) : ℤ) : ℚ) * (1/2) = ((75 : ℤ) : ℚ) := by
    push_cast; norm_num
  rw [e1]
  have e2 : pyInt ((75 : ℤ) : ℚ) = 75 := by
    unfold pyInt
    rw [if_neg (by push_cast; norm_num)]
    exact_mod_cast Int.floor_intCast 75
  rw [e2]
  have e3 : max (0 : ℤ) 75 = 75 := max_eq_right (by norm_num)
  have e4 : ((100 : ℤ) + 150).fdiv 2 + ((150 : ℤ) - 100) * 4 = 325 := rfl
  rw [e3, e4]
  have hle : (325 : ℤ) ≤ (img.length : ℤ) := by exact_mod_cast h3
  have e5 : min ((img.length : ℤ)) 325 = 325 := min_eq_right hle
  rw [e5]
  simp only [pySlice]
  rw [if_neg (by norm_num : ¬ (75 : ℤ) < 0), if_neg (by norm_num : ¬ (325 : ℤ) < 0)]
  have e6 : min ((img.length : ℤ)) 75 = 75 := min_eq_right (by omega)
  rw [e5, e6]
  rfl

/-- Witness for C9 on a concrete 400-row image. -/
theorem crop_to_half_body_rows_witness :
    dFace9.bbox.y1 = 100 ∧ dFace9.bbox.y2 = 150 ∧ 325 ≤ img400.length ∧
      crop_to_half_body img400 dFace9 = (img400.take 325).drop 75 :=
  ⟨rfl, rfl, by decide!,
    crop_to_half_body_rows img400 dFace9 rfl rfl (by decide!)⟩

/-! Lemmas for the from-scratch insertion branch. -/

theorem finishStage_no_face (env : Env K) (img : Img) (s : K) (m mode : String)
    (hd : detect_face env img = none) :
    (finishStage env img s m mode).image = bgr2rgb img ∧
      (finishStage env img s m mode).method = m := by
  unfold finishStage
  simp [hd]

theorem pyInt_quarter (w : ℕ) : pyInt ((w : ℚ) * (25/100)) = ((w / 4 : ℕ) : ℤ) := by
  unfold pyInt
  rw [if_neg (not_lt.mpr (by positivity))]
  have e : (w : ℚ) * (25/100) = ((w : ℕ) : ℚ) / ((4 : ℕ) : ℚ) := by push_cast; ring
  rw [e, Rat.floor_natCast_div_natCast]
  exact (Int.natCast_div w 4).symm

theorem pyInt_15pct (h : ℕ) : pyInt ((h : ℚ) * (15/100)) = ((3 * h / 20 : ℕ) : ℤ) := by
  unfold pyInt
  rw [if_neg (not_lt.mpr (by positivity))]
  have e : (h : ℚ) * (15/100) = ((3 * h : ℕ) : ℚ) / ((20 : ℕ) : ℚ) := by push_cast; ring
  rw [e, Rat.floor_natCast_div_natCast]
  exact (Int.natCast_div (3 * h) 20).symm

theorem fdiv_two_natCast (n : ℕ) : ((n : ℤ)).fdiv 2 = ((n / 2 : ℕ) : ℤ) := by
  rw [Int.fdiv_eq_ediv _ (by norm_num)]
  exact (Int.natCast_div n 2).symm

/-- The claim C10.
When the face-swap capability is unavailable and the generated image has no
detectable face, `swap_face_from_scratch` returns its target unchanged, so
the pipeline hands back the generated image as is - yet the result still
reports similarity 0.95, `face_preserved = true` and a method carrying a
"face_insert" token, claiming fidelity although nothing was inserted. -/
theorem swapper_absent_insertion_still_reports_fidelity (env : Env K)
    (person clothing : Img) (mode category : String) (num_steps : ℕ) (guidance : ℚ)
    (ofc : FaceData K) (gen : Img)
    (hswap : env.swapper_present = false)
    (hof : detect_face env (rgb2bgr (preprocess_image env person 1024)) = some ofc)
    (hgen : genStep env (preprocess_image env person 1024)
      (preprocess_image env clothing 1024) category num_steps guidance = .ok gen)
    (hgf : detect_face env (rgb2bgr gen) = none) :
    (∀ (src tgt : Img) (f : FaceData K), swap_face_from_scratch env src tgt f = tgt) ∧
      (generate_tryon_with_face_preservation env person clothing mode category
        num_steps guidance).image = gen ∧
      (generate_tryon_with_face_preservation env person clothing mode category
        num_steps guidance).face_similarity = 95/100 ∧
      (generate_tryon_with_face_preservation env person clothing mode category
        num_steps guidance).face_preserved = true ∧
      strHasTok (generate_tryon_with_face_preservation env person clothing mode
        category num_steps guidance).method "face_insert" = true := by
  have hsw : ∀ (src tgt : Img) (f : FaceData K), swap_face_from_scratch env src tgt f = tgt := by
    intro src tgt f
    unfold swap_face_from_scratch
    simp [hswap]
  have hr : generate_tryon_with_face_preservation env person clothing mode category
      num_steps guidance = afterGeneration env (rgb2bgr (preprocess_image env person 1024))
      ofc (rgb2bgr gen) (if env.ootd_present then "OOTDiffusion" else "fallback") mode := by
    unfold generate_tryon_with_face_preservation
    simp only [hof, hgen]
  have hfin := finishStage_no_face env (rgb2bgr gen) (95/100 : K)
    ((if env.ootd_present then "OOTDiffusion" else "fallback") ++ "+face_insert") mode hgf
  have hr2 : generate_tryon_with_face_preservation env person clothing mode category
      num_steps guidance = finishStage env (rgb2bgr gen) (95/100 : K)
      ((if env.ootd_present then "OOTDiffusion" else "fallback") ++ "+face_insert") mode := by
    rw [hr]
    unfold afterGeneration
    simp only [hgf, hsw]
  refine ⟨hsw, ?_, ?_, ?_, ?_⟩
  · rw [hr2, hfin.1, bgr_rgb_roundtrip]
  · rw [hr2, finishStage_face_similarity]
  · rw [hr2, finishStage_face_preserved, decide_eq_true_eq]
    norm_num
  · rw [hr2, hfin.2]
    cases hb : env.ootd_present <;> decide

/-- Witness for C10: with a missing swapper and an undetectable generated
face, the concrete run returns the generated image unchanged while claiming
a 0.95 similarity and a "face_insert" step. -/
theorem swapper_absent_insertion_still_reports_fidelity_witness :
    c10Env.swapper_present = false ∧
      (generate_tryon_with_face_preservation c10Env pimg pimg "PART" "upperbody" 25
        (5/2)).image = gimg ∧
      (generate_tryon_with_face_preservation c10Env pimg pimg "PART" "upperbody" 25
        (5/2)).face_similarity = 95/100 ∧
      (generate_tryon_with_face_preservation c10Env pimg pimg "PART" "upperbody" 25
        (5/2)).face_preserved = true ∧
      strHasTok (generate_tryon_with_face_preservation c10Env pimg pimg "PART"
        "upperbody" 25 (5/2)).method "face_insert" = true := by
  have h := swapper_absent_insertion_still_reports_fidelity c10Env pimg pimg "PART"
    "upperbody" 25 (5/2) dFace1 gimg (by decide!) (by decide!) (by decide!) (by decide!)
  exact ⟨by decide!, h.2.1, h.2.2.1, h.2.2.2.1, h.2.2.2.2⟩

/-- The claim C6.
When the original has a detectable face but the generated image does not,
the pipeline inserts the face from scratch: the reported similarity is set
to 0.95 with no re-measurement (so `face_preserved = true`) and a
"face_insert" token is appended to the method; the insertion itself crops
the analyzer's source face, scales it so its width is a quarter
(`int(w * 0.25)`) of the target width, and alpha-blends it under the
Gaussian-blurred elliptical mask at the estimated head position -
horizontally centered (`w // 2`) and vertically at 15% of the image height
(`int(h * 0.15)`). The geometry clause applies where the source draws the
mask at all: scaled face at least 10 pixels each way (below that,
`cv2.ellipse` receives a negative axis, raises, and the `except` returns
the target unchanged) and an in-bounds paste. -/
theorem from_scratch_insertion_score_and_geometry (env : Env K)
    (person clothing : Img) (mode category : String) (num_steps : ℕ) (guidance : ℚ)
    (ofc : FaceData K) (gen : Img)
    (hof : detect_face env (rgb2bgr (preprocess_image env person 1024)) = some ofc)
    (hgen : genStep env (preprocess_image env person 1024)
      (preprocess_image env clothing 1024) category num_steps guidance = .ok gen)
    (hgf : detect_face env (rgb2bgr gen) = none) :
    (generate_tryon_with_face_preservation env person clothing mode category
        num_steps guidance).face_similarity = 95/100 ∧
      (generate_tryon_with_face_preservation env person clothing mode category
        num_steps guidance).face_preserved = true ∧
      strHasTok (generate_tryon_with_face_preservation env person clothing mode
        category num_steps guidance).method "face_insert" = true ∧
      (∀ (tgt : Img) (src : RawFace K) (rest : List (RawFace K)),
        env.swapper_present = true →
        env.analyzer_get (rgb2bgr (preprocess_image env person 1024)) = .ok (src :: rest) →
        ∀ (region : Img) (w h nw nh : ℕ) (px py : ℤ),
        region = slice2D (rgb2bgr (preprocess_image env person 1024))
          src.bbox.y1 src.bbox.y2 src.bbox.x1 src.bbox.x2 →
        w = imgWidth tgt → h = tgt.length →
        nw = w / 4 →
        nh = (pyInt ((region.length : ℚ) * (((nw : ℕ) : ℚ) / (imgWidth region : ℚ)))).toNat →
        px = ((w / 2 : ℕ) : ℤ) - ((nw / 2 : ℕ) : ℤ) →
        py = ((3 * h / 20 : ℕ) : ℤ) - ((nh / 2 : ℕ) : ℤ) →
        imgWidth region ≠ 0 → 10 ≤ nw → 10 ≤ nh →
        (0 ≤ py ∧ py + (nh : ℤ) ≤ (h : ℤ) ∧ 0 ≤ px ∧ px + (nw : ℤ) ≤ (w : ℤ)) →
        swap_face_from_scratch env (rgb2bgr (preprocess_image env person 1024)) tgt ofc =
          blendPatch tgt (env.resizeCV region nw nh)
            (env.gaussBlur (env.ellipseMask nw nh (((nw / 2 : ℕ) : ℤ), ((nh / 2 : ℕ) : ℤ))
              (((nw / 2 : ℕ) : ℤ) - 5, ((nh / 2 : ℕ) : ℤ) - 5)) 21 10) px py) := by
  have hr : generate_tryon_with_face_preservation env person clothing mode category
      num_steps guidance = afterGeneration env (rgb2bgr (preprocess_image env person 1024))
      ofc (rgb2bgr gen) (if env.ootd_present then "OOTDiffusion" else "fallback") mode := by
    unfold generate_tryon_with_face_preservation
    simp only [hof, hgen]
  have hr2 : generate_tryon_with_face_preservation env person clothing mode category
      num_steps guidance = finishStage env
      (swap_face_from_scratch env (rgb2bgr (preprocess_image env person 1024))
        (rgb2bgr gen) ofc) (95/100 : K)
      ((if env.ootd_present then "OOTDiffusion" else "fallback") ++ "+face_insert") mode := by
    rw [hr]
    unfold afterGeneration
    simp only [hgf]
  refine ⟨?_, ?_, ?_, ?_⟩
  · rw [hr2, finishStage_face_similarity]
  · rw [hr2, finishStage_face_preserved, decide_eq_true_eq]
    norm_num
  · rw [hr2]
    rcases finishStage_method env
        (swap_face_from_scratch env (rgb2bgr (preprocess_image env person 1024))
          (rgb2bgr gen) ofc) (95/100 : K)
        ((if env.ootd_present then "OOTDiffusion" else "fallback") ++ "+face_insert")
        mode with h | h <;>
      rw [h] <;> cases hb : env.ootd_present <;> decide
  · intro tgt src rest hswT hana region w h nw nh px py hregion hw hh hnw hnh hpx hpy
      hfw h10w h10h hbounds
    subst hregion hw hh hnw hnh hpx hpy
    unfold swap_face_from_scratch
    rw [hswT]
    simp only [hana]
    rw [if_neg (by simp : ¬ (true = false))]
    rw [if_neg hfw]
    rw [pyInt_quarter]
    simp only [Int.toNat_natCast, Int.cast_natCast]
    rw [if_neg (by push_neg; exact ⟨by omega, by omega⟩)]
    rw [pyInt_15pct]
    simp only [fdiv_two_natCast]
    rw [if_neg (by push_neg; constructor <;> omega)]
    rw [if_pos hbounds]

/-- Witness for C6: a concrete from-scratch insertion into a 40 x 40 target
(so the scaled face is 10 pixels wide and the ellipse axes nonnegative),
with its computed geometry. -/
theorem from_scratch_insertion_score_and_geometry_witness :
    (generate_tryon_with_face_preservation c6Env pimg6 pimg6 "FULL_FIT" "upperbody" 25
        (5/2)).face_similarity = 95/100 ∧
      (generate_tryon_with_face_preservation c6Env pimg6 pimg6 "FULL_FIT" "upperbody" 25
        (5/2)).face_preserved = true ∧
      strHasTok (generate_tryon_with_face_preservation c6Env pimg6 pimg6 "FULL_FIT"
        "upperbody" 25 (5/2)).method "face_insert" = true ∧
      swap_face_from_scratch c6Env (rgb2bgr (preprocess_image c6Env pimg6 1024))
          (rgb2bgr gimg40) dFace1 =
        blendPatch (rgb2bgr gimg40) (c6Env.resizeCV [[(7, 7, 7)]] 10 10)
          (c6Env.gaussBlur (c6Env.ellipseMask 10 10 (((10 / 2 : ℕ) : ℤ), ((10 / 2 : ℕ) : ℤ))
            (((10 / 2 : ℕ) : ℤ) - 5, ((10 / 2 : ℕ) : ℤ) - 5)) 21 10)
          (((40 / 2 : ℕ) : ℤ) - ((10 / 2 : ℕ) : ℤ))
          (((3 * 40 / 20 : ℕ) : ℤ) - ((10 / 2 : ℕ) : ℤ)) := by
  have h := from_scratch_insertion_score_and_geometry c6Env pimg6 pimg6 "FULL_FIT"
    "upperbody" 25 (5/2) dFace1 gimg40 (by decide!) (by decide!) (by decide!)
  refine ⟨h.1, h.2.1, h.2.2.1, ?_⟩
  exact h.2.2.2 (rgb2bgr gimg40) face1 [] (by decide!) (by decide!)
    [[(7, 7, 7)]] 40 40 10 10 (((40 / 2 : ℕ) : ℤ) - ((10 / 2 : ℕ) : ℤ))
    (((3 * 40 / 20 : ℕ) : ℤ) - ((10 / 2 : ℕ) : ℤ))
    (by decide!) (by decide!) (by decide!) (by decide!) (by decide!) rfl rfl
    (by decide!) (by decide!) (by decide!) (by decide!)

end MirrorX
